import Mathlib

/-!
Shallow embedding of the device bring-up and swap-chain pipeline of
`src/main.cpp` (class `TriangleApp`), together with proofs about the
selection policies (surface format, present mode, extent, image count,
sharing mode), the queue-family walk, physical-device selection, the
image-view batch and the teardown order.

Runtime queries (`vkGetPhysicalDevice...`, `vkGetPhysicalDeviceSurface...`)
are modelled by an explicit environment `VulkanEnv` mapping a physical
device handle to the data the runtime would report for it.  Machine
integers are modelled as `Nat`; the one place the source narrows a value
(the `uint8_t` image count in `createImageView`) is modelled by an
explicit `% 256`.
-/

set_option autoImplicit false

namespace TriangleApp

/-- Physical-device handles are opaque; we model them as naturals, with `0`
playing the role of the null handle. -/
abbrev VkPhysicalDevice := Nat

/-- `VK_NULL_HANDLE` for physical devices. -/
def VK_NULL_HANDLE : VkPhysicalDevice := 0

/-- `VkFormat` enumerant used by the source (value from the Vulkan headers). -/
def VK_FORMAT_B8G8R8A8_SRGB : Nat := 50

/-- `VkColorSpaceKHR` enumerant used by the source (value from the Vulkan headers). -/
def VK_COLOR_SPACE_SRGB_NONLINEAR_KHR : Nat := 0

/-- A surface format entry: pixel format plus color space
(`VkSurfaceFormatKHR` has exactly these two members). -/
structure VkSurfaceFormatKHR where
  format : Nat
  colorSpace : Nat
  deriving DecidableEq, Repr

/-- The four present modes discussed in the source. -/
inductive VkPresentModeKHR where
  | immediate
  | mailbox
  | fifo
  | fifoRelaxed
  deriving DecidableEq, Repr

/-- A 2-D extent in pixels (`VkExtent2D`). -/
structure VkExtent2D where
  width : Nat
  height : Nat
  deriving DecidableEq, Repr

/-- The fields of `VkSurfaceCapabilitiesKHR` the source reads. -/
structure VkSurfaceCapabilitiesKHR where
  minImageCount : Nat
  maxImageCount : Nat
  currentExtent : VkExtent2D
  minImageExtent : VkExtent2D
  maxImageExtent : VkExtent2D
  deriving DecidableEq, Repr

/-- `numeric_limits<uint32_t>::max()`, the sentinel for "no fixed extent". -/
def UINT32_MAX : Nat := 2 ^ 32 - 1

/-- `std::clamp(v, lo, hi)`: `lo` if `v < lo`, else `hi` if `hi < v`, else `v`. -/
def cppClamp (v lo hi : Nat) : Nat :=
  if v < lo then lo else if hi < v then hi else v

/-- The format predicate of the loop in `chooseSwapSurfaceFormat`
(main.cpp:400-405). -/
def isPreferredFormat (f : VkSurfaceFormatKHR) : Bool :=
  f.format == VK_FORMAT_B8G8R8A8_SRGB && f.colorSpace == VK_COLOR_SPACE_SRGB_NONLINEAR_KHR

/-- `TriangleApp::chooseSwapSurfaceFormat` (main.cpp:397-408): scan the
advertised formats for `{B8G8R8A8_SRGB, SRGB_NONLINEAR}` and return the
first hit; otherwise fall back to `availableFormats[0]`.  The fallback
indexes the vector unconditionally, so on an empty vector the read is out
of bounds; that error case is modelled as `none`. -/
def chooseSwapSurfaceFormat (availableFormats : List VkSurfaceFormatKHR) :
    Option VkSurfaceFormatKHR :=
  match availableFormats.find? isPreferredFormat with
  | some f => some f
  | none => availableFormats.head?

/-- `TriangleApp::chooseSwapPresentMode` (main.cpp:434-443): return mailbox
if advertised, otherwise FIFO. -/
def chooseSwapPresentMode (availablePresentModes : List VkPresentModeKHR) :
    VkPresentModeKHR :=
  match availablePresentModes.find? (fun m => m == VkPresentModeKHR.mailbox) with
  | some m => m
  | none => VkPresentModeKHR.fifo

/-- `TriangleApp::chooseSwapExtent` (main.cpp:456-481): use `currentExtent`
verbatim when its width differs from the `UINT32_MAX` sentinel; otherwise
clamp the framebuffer size of the window (`fbWidth × fbHeight`) into
`[minImageExtent, maxImageExtent]` per axis. -/
def chooseSwapExtent (capabilities : VkSurfaceCapabilitiesKHR)
    (fbWidth fbHeight : Nat) : VkExtent2D :=
  if capabilities.currentExtent.width ≠ UINT32_MAX then
    capabilities.currentExtent
  else
    { width := cppClamp fbWidth capabilities.minImageExtent.width
        capabilities.maxImageExtent.width
      height := cppClamp fbHeight capabilities.minImageExtent.height
        capabilities.maxImageExtent.height }

/-- The requested swap-chain image count computed in `createSwapChain`
(main.cpp:235-241): start at `minImageCount + 1` and clamp down to
`maxImageCount` when the latter is positive and exceeded. -/
def requestedImageCount (capabilities : VkSurfaceCapabilitiesKHR) : Nat :=
  let imageCount := capabilities.minImageCount + 1
  if capabilities.maxImageCount > 0 && imageCount > capabilities.maxImageCount then
    capabilities.maxImageCount
  else
    imageCount

/-- The guarantees the Vulkan runtime gives for any observable
`VkSurfaceCapabilitiesKHR`: the extent range is non-degenerate, and when a
fixed `currentExtent` is reported it lies inside that range. -/
def capsWellFormed (c : VkSurfaceCapabilitiesKHR) : Prop :=
  c.minImageExtent.width ≤ c.maxImageExtent.width ∧
  c.minImageExtent.height ≤ c.maxImageExtent.height ∧
  (c.currentExtent.width ≠ UINT32_MAX →
    c.minImageExtent.width ≤ c.currentExtent.width ∧
    c.currentExtent.width ≤ c.maxImageExtent.width ∧
    c.minImageExtent.height ≤ c.currentExtent.height ∧
    c.currentExtent.height ≤ c.maxImageExtent.height)

instance (c : VkSurfaceCapabilitiesKHR) : Decidable (capsWellFormed c) := by
  unfold capsWellFormed; infer_instance

/-- The extent `e` lies in `[minImageExtent, maxImageExtent]` of `c`,
componentwise. -/
def extentWithin (e : VkExtent2D) (c : VkSurfaceCapabilitiesKHR) : Prop :=
  c.minImageExtent.width ≤ e.width ∧ e.width ≤ c.maxImageExtent.width ∧
  c.minImageExtent.height ≤ e.height ∧ e.height ≤ c.maxImageExtent.height

instance (e : VkExtent2D) (c : VkSurfaceCapabilitiesKHR) :
    Decidable (extentWithin e c) := by
  unfold extentWithin; infer_instance

lemma cppClamp_le {v lo hi : Nat} (h : lo ≤ hi) : cppClamp v lo hi ≤ hi := by
  unfold cppClamp
  split
  · exact h
  · split
    · exact le_rfl
    · omega

lemma le_cppClamp {v lo hi : Nat} (h : lo ≤ hi) : lo ≤ cppClamp v lo hi := by
  unfold cppClamp
  split
  · exact le_rfl
  · split <;> omega

/-- `VK_QUEUE_GRAPHICS_BIT` (value from the Vulkan headers). -/
def VK_QUEUE_GRAPHICS_BIT : Nat := 1

/-- The field of `VkQueueFamilyProperties` the source reads. -/
structure VkQueueFamilyProperties where
  queueFlags : Nat
  deriving DecidableEq, Repr

/-- `QueueFamilyIndices` (main.cpp:18-27). -/
structure QueueFamilyIndices where
  graphicsFamily : Option Nat
  presentFamily : Option Nat
  deriving DecidableEq, Repr

/-- `QueueFamilyIndices::isComplete`: both optionals hold a value. -/
def QueueFamilyIndices.isComplete (q : QueueFamilyIndices) : Bool :=
  q.graphicsFamily.isSome && q.presentFamily.isSome

/-- The runtime queries the program issues, modelled as a pure environment:
each query is a function of the physical-device handle it is issued
against (the surface and instance are fixed for the whole bring-up). -/
structure VulkanEnv where
  queueFamilies : VkPhysicalDevice → List VkQueueFamilyProperties
  presentSupport : VkPhysicalDevice → Nat → Bool
  deviceType : VkPhysicalDevice → Nat
  maxImageDimension2D : VkPhysicalDevice → Nat
  supportedExtensions : VkPhysicalDevice → List String
  surfaceFormats : VkPhysicalDevice → List VkSurfaceFormatKHR
  surfacePresentModes : VkPhysicalDevice → List VkPresentModeKHR

/-- The loop of `TriangleApp::findQueueFamilies` (main.cpp:522-541).
`memberPhysicalDevice` is the value of the `physicalDevice` member field:
the presentation query at main.cpp:530 is issued against that field, not
against the `device` parameter of the enclosing function. -/
def findQueueFamiliesLoop (env : VulkanEnv)
    (memberPhysicalDevice : VkPhysicalDevice)
    (families : List VkQueueFamilyProperties) (i : Nat)
    (indices : QueueFamilyIndices) : QueueFamilyIndices :=
  match families with
  | [] => indices
  | queueFamily :: rest =>
    let indices :=
      if queueFamily.queueFlags &&& VK_QUEUE_GRAPHICS_BIT ≠ 0 then
        { indices with graphicsFamily := some i }
      else indices
    let indices :=
      if env.presentSupport memberPhysicalDevice i then
        { indices with presentFamily := some i }
      else indices
    if indices.isComplete then indices
    else findQueueFamiliesLoop env memberPhysicalDevice rest (i + 1) indices

/-- `TriangleApp::findQueueFamilies` (main.cpp:511-544), with the member
field `physicalDevice` made explicit as `memberPhysicalDevice`. -/
def findQueueFamilies (env : VulkanEnv)
    (memberPhysicalDevice device : VkPhysicalDevice) : QueueFamilyIndices :=
  findQueueFamiliesLoop env memberPhysicalDevice (env.queueFamilies device) 0
    ⟨none, none⟩

/-- `VK_PHYSICAL_DEVICE_TYPE_DISCRETE_GPU` (value from the Vulkan headers). -/
def VK_PHYSICAL_DEVICE_TYPE_DISCRETE_GPU : Nat := 2

/-- `TriangleApp::rateDeviceSuitability` (main.cpp:546-573): +1000 for a
discrete GPU, plus the 2-D texture-size limit; the geometry-shader gate is
commented out in the source. -/
def rateDeviceSuitability (env : VulkanEnv) (device : VkPhysicalDevice) : Int :=
  let score : Int := if env.deviceType device = VK_PHYSICAL_DEVICE_TYPE_DISCRETE_GPU then 1000 else 0
  score + env.maxImageDimension2D device

/-- The required device-extension list (main.cpp:115-117). -/
def deviceExtensions : List String := ["VK_KHR_swapchain"]

/-- `TriangleApp::checkDeviceExtensionSupport` (main.cpp:598-617): every
required extension name appears among the reported device extensions. -/
def checkDeviceExtensionSupport (env : VulkanEnv) (device : VkPhysicalDevice) : Bool :=
  deviceExtensions.all (fun req => (env.supportedExtensions device).contains req)

/-- `TriangleApp::isDeviceSuitable` (main.cpp:575-589): queue families
complete, extensions supported, and (only then queried) at least one
surface format and one present mode.  `memberPhysicalDevice` is the value
the `physicalDevice` member holds when the call is made. -/
def isDeviceSuitable (env : VulkanEnv)
    (memberPhysicalDevice device : VkPhysicalDevice) : Bool :=
  let indices := findQueueFamilies env memberPhysicalDevice device
  let extensionsSupported := checkDeviceExtensionSupport env device
  let swapChainAdequate :=
    if extensionsSupported then
      !(env.surfaceFormats device).isEmpty && !(env.surfacePresentModes device).isEmpty
    else false
  indices.isComplete && extensionsSupported && swapChainAdequate

/-- The error exits of bring-up that the claims mention. -/
inductive BringUpError where
  | NoVulkanGPU
  | NoSuitableGPU
  deriving DecidableEq, Repr

/-- One insertion step of the `rbegin()` computation: keep whichever of
the running best and the next entry has the greater key, preferring the
newer entry on equal keys (a multimap keeps equal keys in insertion
order, so the last-inserted of the greatest keys is at `rbegin()`). -/
def multimapTopStep (best : Option (Int × VkPhysicalDevice))
    (c : Int × VkPhysicalDevice) : Option (Int × VkPhysicalDevice) :=
  match best with
  | none => some c
  | some b => if b.1 ≤ c.1 then some c else some b

/-- The entry `rbegin()` denotes in the score-keyed `std::multimap` of
`pickPhysicalDevice` (main.cpp:365-372). -/
def multimapTop (candidates : List (Int × VkPhysicalDevice)) :
    Option (Int × VkPhysicalDevice) :=
  candidates.foldl multimapTopStep none

/-- `TriangleApp::pickPhysicalDevice` (main.cpp:346-382): enumerate, fail
with `NoVulkanGPU` on an empty enumeration, score every device into the
multimap, take the top entry; if its score is positive assign it to the
`physicalDevice` member, else fail `NoSuitableGPU`; finally fail
`NoSuitableGPU` unless the member is non-null and suitable (the
suitability check runs after the assignment, so it sees the chosen device
in the member field). -/
def pickPhysicalDevice (env : VulkanEnv) (devices : List VkPhysicalDevice) :
    Except BringUpError VkPhysicalDevice :=
  if devices.isEmpty then Except.error BringUpError.NoVulkanGPU
  else
    let candidates := devices.map (fun d => (rateDeviceSuitability env d, d))
    match multimapTop candidates with
    | none => Except.error BringUpError.NoVulkanGPU
    | some top =>
      if top.1 > 0 then
        let physicalDevice := top.2
        if physicalDevice = VK_NULL_HANDLE ∨
            ¬ isDeviceSuitable env physicalDevice physicalDevice then
          Except.error BringUpError.NoSuitableGPU
        else Except.ok physicalDevice
      else Except.error BringUpError.NoSuitableGPU

/-- `VkSharingMode` (the two values the source uses). -/
inductive VkSharingMode where
  | exclusive
  | concurrent
  deriving DecidableEq, Repr

/-- The sharing-related fields of `VkSwapchainCreateInfoKHR`; the list
models `queueFamilyIndexCount` entries of `pQueueFamilyIndices`. -/
structure SharingConfig where
  imageSharingMode : VkSharingMode
  queueFamilyIndexList : List Nat
  deriving DecidableEq, Repr

/-- The sharing-mode branch of `createSwapChain` (main.cpp:260-275), as a
function of the two queue-family indices (both hold values on the success
path, where `.value()` at main.cpp:261 does not throw). -/
def swapChainSharing (graphicsFamily presentFamily : Nat) : SharingConfig :=
  if graphicsFamily ≠ presentFamily then
    { imageSharingMode := VkSharingMode.concurrent
      queueFamilyIndexList := [graphicsFamily, presentFamily] }
  else
    { imageSharingMode := VkSharingMode.exclusive
      queueFamilyIndexList := [] }

/-- The fields of `VkImageViewCreateInfo` that `createImageView` sets per
image (the structurally constant ones are carried so the definition stays
a translation of main.cpp:187-205, not a count). -/
structure VkImageViewCreateInfo where
  image : Nat
  viewType2D : Bool
  format : Nat
  identitySwizzle : Bool
  aspectColor : Bool
  baseMipLevel : Nat
  levelCount : Nat
  baseArrayLayer : Nat
  layerCount : Nat
  deriving DecidableEq, Repr

/-- `TriangleApp::createImageView` (main.cpp:182-211): the image count is
stored in a `uint8_t` (`uint8_t imageCount = swapChainImages.size()`), so
it is the vector length reduced modulo 256; the view vector is resized to
that count and one 2-D color view is created per index below it. -/
def createImageViews (swapChainImages : List Nat)
    (swapChainImageFormat : Nat) : List VkImageViewCreateInfo :=
  let imageCount := swapChainImages.length % 256
  (List.range imageCount).map (fun i =>
    { image := swapChainImages.getD i 0
      viewType2D := true
      format := swapChainImageFormat
      identitySwizzle := true
      aspectColor := true
      baseMipLevel := 0
      levelCount := 1
      baseArrayLayer := 0
      layerCount := 1 })

/-- The destruction events of `cleanup` (main.cpp:649-663). -/
inductive DestroyEvent where
  | debugMessenger
  | imageView (v : Nat)
  | swapChain
  | logicalDevice
  | surface
  | vkInstance
  | window
  | glfwTerminate
  deriving DecidableEq, Repr

/-- `TriangleApp::cleanup` (main.cpp:649-663) as the trace of destruction
events it emits, statement by statement: the debug messenger first (when
validation is on), then each image view in vector order, then the swap
chain, logical device, surface, instance, window, and the GLFW runtime. -/
def cleanup (enableValidationLayers : Bool)
    (swapChainImageViews : List Nat) : List DestroyEvent :=
  let t := if enableValidationLayers then [DestroyEvent.debugMessenger] else []
  let t := swapChainImageViews.foldl (fun acc v => acc ++ [DestroyEvent.imageView v]) t
  let t := t ++ [DestroyEvent.swapChain]
  let t := t ++ [DestroyEvent.logicalDevice]
  let t := t ++ [DestroyEvent.surface]
  let t := t ++ [DestroyEvent.vkInstance]
  let t := t ++ [DestroyEvent.window]
  t ++ [DestroyEvent.glfwTerminate]

/-- The preferred surface format of `chooseSwapSurfaceFormat`:
`{VK_FORMAT_B8G8R8A8_SRGB, VK_COLOR_SPACE_SRGB_NONLINEAR_KHR}`. -/
def preferredSurfaceFormat : VkSurfaceFormatKHR :=
  { format := VK_FORMAT_B8G8R8A8_SRGB
    colorSpace := VK_COLOR_SPACE_SRGB_NONLINEAR_KHR }

/-- The queue-family walk exactly as the specification words it: for each
family index `i` of the candidate device, set `graphicsFamily := i` on
graphics capability and `presentFamily := i` when family `i` of that same
candidate device reports presentation support; stop once both are set. -/
def findQueueFamiliesSpecLoop (env : VulkanEnv) (device : VkPhysicalDevice)
    (families : List VkQueueFamilyProperties) (i : Nat)
    (indices : QueueFamilyIndices) : QueueFamilyIndices :=
  match families with
  | [] => indices
  | queueFamily :: rest =>
    let indices :=
      if queueFamily.queueFlags &&& VK_QUEUE_GRAPHICS_BIT ≠ 0 then
        { indices with graphicsFamily := some i }
      else indices
    let indices :=
      if env.presentSupport device i then
        { indices with presentFamily := some i }
      else indices
    if indices.isComplete then indices
    else findQueueFamiliesSpecLoop env device rest (i + 1) indices

/-- The specification-side queue-family discovery for a candidate device
(presentation queried against the candidate itself). -/
def findQueueFamiliesSpec (env : VulkanEnv) (device : VkPhysicalDevice) :
    QueueFamilyIndices :=
  findQueueFamiliesSpecLoop env device (env.queueFamilies device) 0 ⟨none, none⟩

/-- The teardown order as the claim states it: image views, swap chain,
logical device, diagnostic sink (if enabled), surface, instance, window,
window-host runtime. -/
def cleanupClaimedOrder (enableValidationLayers : Bool)
    (swapChainImageViews : List Nat) : List DestroyEvent :=
  swapChainImageViews.map DestroyEvent.imageView ++
  [DestroyEvent.swapChain, DestroyEvent.logicalDevice] ++
  (if enableValidationLayers then [DestroyEvent.debugMessenger] else []) ++
  [DestroyEvent.surface, DestroyEvent.vkInstance, DestroyEvent.window,
   DestroyEvent.glfwTerminate]

/-- The teardown order the code actually performs, as a flat list: the
diagnostic sink first (if enabled), then image views, swap chain, logical
device, surface, instance, window, window-host runtime. -/
def cleanupActualOrder (enableValidationLayers : Bool)
    (swapChainImageViews : List Nat) : List DestroyEvent :=
  (if enableValidationLayers then [DestroyEvent.debugMessenger] else []) ++
  swapChainImageViews.map DestroyEvent.imageView ++
  [DestroyEvent.swapChain, DestroyEvent.logicalDevice, DestroyEvent.surface,
   DestroyEvent.vkInstance, DestroyEvent.window, DestroyEvent.glfwTerminate]

/-- Surface capabilities with `minImageCount = maxImageCount = 2`, a
combination Vulkan permits (`maxImageCount` need only be at least
`minImageCount` when it is non-zero). -/
def capsTight : VkSurfaceCapabilitiesKHR :=
  { minImageCount := 2
    maxImageCount := 2
    currentExtent := ⟨800, 600⟩
    minImageExtent := ⟨800, 600⟩
    maxImageExtent := ⟨800, 600⟩ }

/-- Surface capabilities with a fixed 800×600 `currentExtent` inside the
allowed range (witness input). -/
def capsFixed : VkSurfaceCapabilitiesKHR :=
  { minImageCount := 2
    maxImageCount := 4
    currentExtent := ⟨800, 600⟩
    minImageExtent := ⟨1, 1⟩
    maxImageExtent := ⟨2000, 2000⟩ }

/-- A swap-chain image vector of length 256, the smallest length at which
the `uint8_t` image count of `createImageView` wraps to 0. -/
def images256 : List Nat := List.replicate 256 0

/-- A one-device runtime: device 1 is a discrete GPU with one
graphics-and-present queue family, the swap-chain extension, one surface
format and one present mode (witness environment). -/
def envW : VulkanEnv :=
  { queueFamilies := fun _ => [⟨1⟩]
    presentSupport := fun _ _ => true
    deviceType := fun _ => VK_PHYSICAL_DEVICE_TYPE_DISCRETE_GPU
    maxImageDimension2D := fun _ => 4096
    supportedExtensions := fun _ => ["VK_KHR_swapchain"]
    surfaceFormats := fun _ => [preferredSurfaceFormat]
    surfacePresentModes := fun _ => [VkPresentModeKHR.fifo] }

/-! Theorems. -/

lemma createImageViews_length (swapChainImages : List Nat) (fmt : Nat) :
    (createImageViews swapChainImages fmt).length = swapChainImages.length % 256 := by
  unfold createImageViews
  rw [List.length_map, List.length_range]

/-- Claim C1 (counterexample): when the runtime enumerates 256 swap-chain
images, `createImageView` resizes the view vector to `256 % 256 = 0`, so
the number of views differs from the number of images. -/
theorem createImageViews_truncates_at_256 :
    (createImageViews images256 7).length ≠ images256.length := by
  rw [createImageViews_length]
  unfold images256
  rw [List.length_replicate]
  decide

/-- Claim C1 (amended): the number of image views equals the number of
swap-chain images reduced modulo 256 (the count passes through a `uint8_t`
variable); in particular the two counts are equal whenever the enumerated
image count is at most 255. -/
theorem createImageViews_length_mod (swapChainImages : List Nat) (fmt : Nat) :
    (createImageViews swapChainImages fmt).length = swapChainImages.length % 256 ∧
    (swapChainImages.length < 256 →
      (createImageViews swapChainImages fmt).length = swapChainImages.length) := by
  refine ⟨createImageViews_length swapChainImages fmt, fun hlt => ?_⟩
  rw [createImageViews_length, Nat.mod_eq_of_lt hlt]

/-- Claim C1 (amended, witness): a two-image vector yields exactly two
views. -/
theorem createImageViews_length_mod_witness :
    (createImageViews [5, 6] 7).length = [5, 6].length :=
  (createImageViews_length_mod [5, 6] 7).2 (by decide)

lemma cleanup_foldl_imageView (views : List Nat) (t : List DestroyEvent) :
    views.foldl (fun acc v => acc ++ [DestroyEvent.imageView v]) t =
      t ++ views.map DestroyEvent.imageView := by
  induction views generalizing t with
  | nil => simp
  | cons v vs ih => simp [ih]

/-- Claim C3 (counterexample): with validation enabled and one image view,
the teardown trace of `cleanup` is not the claimed order — the diagnostic
sink is destroyed before the image views, not after the logical device. -/
theorem cleanup_order_ne_claimed :
    cleanup true [3] ≠ cleanupClaimedOrder true [3] := by
  decide

/-- Claim C3 (amended): teardown destroys the diagnostic sink first (when
validation is enabled), then each image view, then the swap chain, the
logical device, the surface, the instance, the window, and finally the
window-host runtime. -/
theorem cleanup_order_eq_actual (enableValidationLayers : Bool)
    (swapChainImageViews : List Nat) :
    cleanup enableValidationLayers swapChainImageViews =
      cleanupActualOrder enableValidationLayers swapChainImageViews := by
  unfold cleanup cleanupActualOrder
  dsimp only
  rw [cleanup_foldl_imageView]
  simp

/-- Claim C4 (counterexample): with `minImageCount = maxImageCount = 2`
(a capabilities value Vulkan permits), the requested image count is
clamped to 2, which is below `minImageCount + 1 = 3`; the first conjunct
of the claim fails. -/
theorem requestedImageCount_can_drop_below_min_succ :
    ¬ (capsTight.minImageCount + 1 ≤ requestedImageCount capsTight) := by
  decide

/-- Claim C4 (amended): the requested swap-chain image count starts at
`minImageCount + 1` and is changed only by clamping down to
`maxImageCount` when `maxImageCount > 0` and the start value exceeds it;
hence it never exceeds a positive `maxImageCount`, and it reaches
`minImageCount + 1` exactly when `maxImageCount = 0` or
`maxImageCount ≥ minImageCount + 1`. -/
theorem requestedImageCount_spec (caps : VkSurfaceCapabilitiesKHR) :
    (caps.maxImageCount = 0 ∨ requestedImageCount caps ≤ caps.maxImageCount) ∧
    (requestedImageCount caps = caps.minImageCount + 1 ∨
      (0 < caps.maxImageCount ∧ caps.maxImageCount < caps.minImageCount + 1 ∧
        requestedImageCount caps = caps.maxImageCount)) ∧
    ((caps.maxImageCount = 0 ∨ caps.minImageCount + 1 ≤ caps.maxImageCount) →
      caps.minImageCount + 1 ≤ requestedImageCount caps) := by
  unfold requestedImageCount
  dsimp only
  split <;> rename_i h <;> simp only [Bool.and_eq_true, decide_eq_true_eq] at h <;>
    refine ⟨?_, ?_, ?_⟩ <;> omega

/-- Claim C4 (amended, witness): for `minImageCount = 2`,
`maxImageCount = 4` the requested count is `3 = minImageCount + 1`. -/
theorem requestedImageCount_spec_witness :
    capsFixed.minImageCount + 1 ≤ requestedImageCount capsFixed :=
  (requestedImageCount_spec capsFixed).2.2 (by decide)

/-- Claim C5: for every capabilities value the runtime can report (extent
range non-degenerate, and any fixed `currentExtent` inside that range) and
every framebuffer size, the extent chosen by `chooseSwapExtent` lies in
`[minImageExtent, maxImageExtent]` componentwise — in the fixed-extent
branch because the runtime guarantees it, in the other branch because both
axes are clamped. -/
theorem chooseSwapExtent_in_range (caps : VkSurfaceCapabilitiesKHR)
    (fbWidth fbHeight : Nat) (h : capsWellFormed caps) :
    extentWithin (chooseSwapExtent caps fbWidth fbHeight) caps := by
  obtain ⟨hw, hh, hcur⟩ := h
  unfold chooseSwapExtent
  split
  · next hfix => exact hcur hfix
  · exact ⟨le_cppClamp hw, cppClamp_le hw, le_cppClamp hh, cppClamp_le hh⟩

/-- Claim C5 (witness): with a fixed 800×600 extent inside range
`[1,2000]²`, the chosen extent is within range. -/
theorem chooseSwapExtent_in_range_witness :
    extentWithin (chooseSwapExtent capsFixed 1024 768) capsFixed :=
  chooseSwapExtent_in_range capsFixed 1024 768 (by decide)

/-- Claim C9: the sharing branch of `createSwapChain` selects concurrent
sharing with both family indices listed exactly when the graphics and
present families differ, and exclusive sharing with an empty index list
exactly when they coincide. -/
theorem swapChainSharing_spec (graphicsFamily presentFamily : Nat) :
    ((swapChainSharing graphicsFamily presentFamily).imageSharingMode =
        VkSharingMode.concurrent ↔ graphicsFamily ≠ presentFamily) ∧
    ((swapChainSharing graphicsFamily presentFamily).imageSharingMode =
        VkSharingMode.exclusive ↔ graphicsFamily = presentFamily) ∧
    (graphicsFamily ≠ presentFamily →
      (swapChainSharing graphicsFamily presentFamily).queueFamilyIndexList =
        [graphicsFamily, presentFamily]) ∧
    (graphicsFamily = presentFamily →
      (swapChainSharing graphicsFamily presentFamily).queueFamilyIndexList = []) := by
  unfold swapChainSharing
  by_cases h : graphicsFamily = presentFamily <;> simp [h]

/-- Claim C9 (witness): distinct families 0 and 1 give concurrent sharing
with both indices listed; equal families 2 and 2 give the empty list. -/
theorem swapChainSharing_spec_witness :
    (swapChainSharing 0 1).imageSharingMode = VkSharingMode.concurrent ∧
    (swapChainSharing 2 2).queueFamilyIndexList = [] :=
  ⟨(swapChainSharing_spec 0 1).1.mpr (by decide),
   (swapChainSharing_spec 2 2).2.2.2 rfl⟩

lemma isPreferredFormat_eq_true_iff (f : VkSurfaceFormatKHR) :
    isPreferredFormat f = true ↔ f = preferredSurfaceFormat := by
  cases f with
  | mk fo cs =>
    simp [isPreferredFormat, preferredSurfaceFormat, VkSurfaceFormatKHR.mk.injEq]

/-- Claim C6: on a non-empty advertised list, `chooseSwapSurfaceFormat`
returns the `{BGRA8-sRGB, sRGB-nonlinear}` entry whenever one is present,
and otherwise the first advertised format. -/
theorem chooseSwapSurfaceFormat_spec (availableFormats : List VkSurfaceFormatKHR)
    (hne : availableFormats ≠ []) :
    (preferredSurfaceFormat ∈ availableFormats →
      chooseSwapSurfaceFormat availableFormats = some preferredSurfaceFormat) ∧
    (preferredSurfaceFormat ∉ availableFormats →
      chooseSwapSurfaceFormat availableFormats = some (availableFormats.head hne)) := by
  constructor
  · intro hmem
    cases hfind : availableFormats.find? isPreferredFormat with
    | none =>
      rw [List.find?_eq_none] at hfind
      exact absurd ((isPreferredFormat_eq_true_iff preferredSurfaceFormat).mpr rfl)
        (hfind preferredSurfaceFormat hmem)
    | some x =>
      have hx := (isPreferredFormat_eq_true_iff x).mp (List.find?_some hfind)
      subst hx
      unfold chooseSwapSurfaceFormat
      rw [hfind]
  · intro hnot
    have hfind : availableFormats.find? isPreferredFormat = none := by
      rw [List.find?_eq_none]
      intro x hx hpx
      exact hnot ((isPreferredFormat_eq_true_iff x).mp hpx ▸ hx)
    unfold chooseSwapSurfaceFormat
    rw [hfind]
    exact List.head?_eq_head hne

/-- Claim C6 (witness): the preferred format is picked out of a two-entry
list whose first entry is a different format. -/
theorem chooseSwapSurfaceFormat_spec_witness :
    chooseSwapSurfaceFormat [⟨44, 9⟩, preferredSurfaceFormat] =
      some preferredSurfaceFormat :=
  (chooseSwapSurfaceFormat_spec [⟨44, 9⟩, preferredSurfaceFormat] (by decide)).1
    (by decide)

/-- Claim C7: `chooseSwapPresentMode` returns mailbox whenever mailbox is
advertised, and FIFO otherwise. -/
theorem chooseSwapPresentMode_spec (availablePresentModes : List VkPresentModeKHR) :
    (VkPresentModeKHR.mailbox ∈ availablePresentModes →
      chooseSwapPresentMode availablePresentModes = VkPresentModeKHR.mailbox) ∧
    (VkPresentModeKHR.mailbox ∉ availablePresentModes →
      chooseSwapPresentMode availablePresentModes = VkPresentModeKHR.fifo) := by
  constructor
  · intro hmem
    cases hfind : availablePresentModes.find?
        (fun m => m == VkPresentModeKHR.mailbox) with
    | none =>
      rw [List.find?_eq_none] at hfind
      exact absurd (by decide) (hfind VkPresentModeKHR.mailbox hmem)
    | some m =>
      have hm := List.find?_some hfind
      rw [beq_iff_eq] at hm
      subst hm
      unfold chooseSwapPresentMode
      rw [hfind]
  · intro hnot
    have hfind : availablePresentModes.find?
        (fun m => m == VkPresentModeKHR.mailbox) = none := by
      rw [List.find?_eq_none]
      intro x hx hpx
      simp only [beq_iff_eq] at hpx
      exact hnot (hpx ▸ hx)
    unfold chooseSwapPresentMode
    rw [hfind]

/-- Claim C7 (witness): mailbox is chosen when advertised second, FIFO
when mailbox is absent. -/
theorem chooseSwapPresentMode_spec_witness :
    chooseSwapPresentMode [VkPresentModeKHR.fifo, VkPresentModeKHR.mailbox] =
      VkPresentModeKHR.mailbox ∧
    chooseSwapPresentMode [VkPresentModeKHR.fifo] = VkPresentModeKHR.fifo :=
  ⟨(chooseSwapPresentMode_spec [VkPresentModeKHR.fifo, VkPresentModeKHR.mailbox]).1
      (by decide),
   (chooseSwapPresentMode_spec [VkPresentModeKHR.fifo]).2 (by decide)⟩

lemma chooseSwapSurfaceFormat_isSome_of_ne_nil
    {availableFormats : List VkSurfaceFormatKHR} (hne : availableFormats ≠ []) :
    (chooseSwapSurfaceFormat availableFormats).isSome = true := by
  unfold chooseSwapSurfaceFormat
  cases hfind : availableFormats.find? isPreferredFormat with
  | some x => rfl
  | none =>
    cases availableFormats with
    | nil => exact absurd rfl hne
    | cons a l => rfl

/-- Claim C10: the fallback of `chooseSwapSurfaceFormat` reads entry 0
unconditionally, so the function is total only on non-empty lists (the
empty list yields the error case `none`); the suitability check of the
selected device requires at least one surface format, so under it the list
is non-empty and the error case is unreachable. -/
theorem chooseSwapSurfaceFormat_total_on_suitable :
    chooseSwapSurfaceFormat [] = none ∧
    ∀ (env : VulkanEnv) (memberPhysicalDevice device : VkPhysicalDevice),
      isDeviceSuitable env memberPhysicalDevice device = true →
      env.surfaceFormats device ≠ [] ∧
      (chooseSwapSurfaceFormat (env.surfaceFormats device)).isSome = true := by
  refine ⟨rfl, fun env memberPhysicalDevice device hsuit => ?_⟩
  have hformats : env.surfaceFormats device ≠ [] := by
    intro hnil
    unfold isDeviceSuitable at hsuit
    simp only [Bool.and_eq_true] at hsuit
    obtain ⟨⟨-, -⟩, hadq⟩ := hsuit
    rw [hnil] at hadq
    by_cases hext : checkDeviceExtensionSupport env device = true
    · rw [if_pos hext] at hadq
      simp at hadq
    · rw [if_neg hext] at hadq
      exact Bool.false_ne_true hadq
  exact ⟨hformats, chooseSwapSurfaceFormat_isSome_of_ne_nil hformats⟩

/-- Claim C10 (witness): device 1 of the one-device runtime `envW` passes
the suitability check, so its format list is non-empty and the chooser
succeeds on it. -/
theorem chooseSwapSurfaceFormat_total_on_suitable_witness :
    envW.surfaceFormats 1 ≠ [] ∧
    (chooseSwapSurfaceFormat (envW.surfaceFormats 1)).isSome = true :=
  chooseSwapSurfaceFormat_total_on_suitable.2 envW 1 1 (by decide)

lemma findQueueFamiliesLoop_self_eq_spec (env : VulkanEnv)
    (device : VkPhysicalDevice) (families : List VkQueueFamilyProperties) :
    ∀ (i : Nat) (indices : QueueFamilyIndices),
      findQueueFamiliesLoop env device families i indices =
        findQueueFamiliesSpecLoop env device families i indices := by
  induction families with
  | nil => intro i indices; rfl
  | cons queueFamily rest ih =>
    intro i indices
    unfold findQueueFamiliesLoop findQueueFamiliesSpecLoop
    dsimp only
    split_ifs <;> first | rfl | exact ih (i + 1) _

/-- Claim C2: every call of `findQueueFamilies` made while examining a
candidate during selection happens after `physicalDevice := candidate`
(main.cpp:373 precedes the `isDeviceSuitable` call at main.cpp:379), so
the member field the presentation query reads equals the candidate; under
that the walk is exactly the specified one — index order, graphics flag
sets `graphicsFamily`, presentation support on the candidate sets
`presentFamily`, and the walk stops once both are populated. -/
theorem findQueueFamilies_eq_spec_on_candidate (env : VulkanEnv)
    (device : VkPhysicalDevice) :
    findQueueFamilies env device device = findQueueFamiliesSpec env device :=
  findQueueFamiliesLoop_self_eq_spec env device (env.queueFamilies device) 0
    ⟨none, none⟩

lemma multimapTop_go (l : List (Int × VkPhysicalDevice)) :
    ∀ b : Int × VkPhysicalDevice,
      ∃ t, l.foldl multimapTopStep (some b) = some t ∧
        (t = b ∨ t ∈ l) ∧ b.1 ≤ t.1 ∧ ∀ c ∈ l, c.1 ≤ t.1 := by
  induction l with
  | nil =>
    intro b
    exact ⟨b, rfl, Or.inl rfl, le_rfl, by simp⟩
  | cons c rest ih =>
    intro b
    by_cases h : b.1 ≤ c.1
    · obtain ⟨t, ht, hmem, hle, hmax⟩ := ih c
      refine ⟨t, ?_, ?_, le_trans h hle, ?_⟩
      · rw [List.foldl_cons]
        show List.foldl multimapTopStep (if b.1 ≤ c.1 then some c else some b) rest = some t
        rw [if_pos h]
        exact ht
      · cases hmem with
        | inl e => exact Or.inr (e ▸ List.mem_cons_self c rest)
        | inr m => exact Or.inr (List.mem_cons_of_mem c m)
      · intro d hd
        cases List.mem_cons.mp hd with
        | inl e => exact e ▸ hle
        | inr m => exact hmax d m
    · obtain ⟨t, ht, hmem, hle, hmax⟩ := ih b
      refine ⟨t, ?_, ?_, hle, ?_⟩
      · rw [List.foldl_cons]
        show List.foldl multimapTopStep (if b.1 ≤ c.1 then some c else some b) rest = some t
        rw [if_neg h]
        exact ht
      · cases hmem with
        | inl e => exact Or.inl e
        | inr m => exact Or.inr (List.mem_cons_of_mem c m)
      · intro d hd
        cases List.mem_cons.mp hd with
        | inl e => exact e ▸ le_trans (le_of_not_le h) hle
        | inr m => exact hmax d m

lemma multimapTop_spec (l : List (Int × VkPhysicalDevice)) (hne : l ≠ []) :
    ∃ t, multimapTop l = some t ∧ t ∈ l ∧ ∀ c ∈ l, c.1 ≤ t.1 := by
  cases l with
  | nil => exact absurd rfl hne
  | cons c rest =>
    obtain ⟨t, ht, hmem, _, hmax⟩ := multimapTop_go rest c
    refine ⟨t, ?_, ?_, ?_⟩
    · unfold multimapTop
      rw [List.foldl_cons]
      exact ht
    · cases hmem with
      | inl e => exact e ▸ List.mem_cons_self c rest
      | inr m => exact List.mem_cons_of_mem c m
    · intro d hd
      cases List.mem_cons.mp hd with
      | inl e =>
        obtain ⟨_, _, hle, _⟩ := multimapTop_go rest c
        exact e ▸ (by
          obtain ⟨t2, ht2, _, hle2, _⟩ := multimapTop_go rest c
          rw [ht2] at ht
          cases ht
          exact hle2)
      | inr m => exact hmax d m

/-- Claim C8: on a non-empty enumeration containing no null handle, the
top multimap entry carries the maximal suitability score over all
candidates; `pickPhysicalDevice` succeeds with that candidate exactly when
its score is positive and it passes `isDeviceSuitable`, and fails with
`NoSuitableGPU` exactly when the top score is ≤ 0 or the chosen candidate
fails the suitability check. -/
theorem pickPhysicalDevice_spec (env : VulkanEnv)
    (devices : List VkPhysicalDevice) (hne : devices ≠ [])
    (hnull : VK_NULL_HANDLE ∉ devices) :
    ∃ t : Int × VkPhysicalDevice,
      multimapTop (devices.map fun d => (rateDeviceSuitability env d, d)) =
        some t ∧
      t.2 ∈ devices ∧ t.1 = rateDeviceSuitability env t.2 ∧
      (∀ d ∈ devices, rateDeviceSuitability env d ≤ t.1) ∧
      (pickPhysicalDevice env devices = Except.ok t.2 ↔
        0 < t.1 ∧ isDeviceSuitable env t.2 t.2 = true) ∧
      (pickPhysicalDevice env devices = Except.error BringUpError.NoSuitableGPU ↔
        t.1 ≤ 0 ∨ isDeviceSuitable env t.2 t.2 = false) := by
  have hcne : (devices.map fun d => (rateDeviceSuitability env d, d)) ≠ [] := by
    intro h
    exact hne (List.map_eq_nil_iff.mp h)
  obtain ⟨t, ht, hmem, hmax⟩ :=
    multimapTop_spec (devices.map fun d => (rateDeviceSuitability env d, d)) hcne
  obtain ⟨d, hd, hdt⟩ := List.mem_map.mp hmem
  have ht2 : t.2 = d := by rw [← hdt]
  have ht1 : t.1 = rateDeviceSuitability env t.2 := by
    rw [← hdt]
  have htmem : t.2 ∈ devices := ht2 ▸ hd
  have hmax2 : ∀ x ∈ devices, rateDeviceSuitability env x ≤ t.1 := by
    intro x hx
    exact hmax (rateDeviceSuitability env x, x) (List.mem_map_of_mem _ hx)
  have hne0 : t.2 ≠ VK_NULL_HANDLE := fun h => hnull (h ▸ htmem)
  have hie : devices.isEmpty = false := by
    cases devices with
    | nil => exact absurd rfl hne
    | cons a l => rfl
  have hpick : pickPhysicalDevice env devices =
      (if t.1 > 0 then
        if t.2 = VK_NULL_HANDLE ∨ ¬ isDeviceSuitable env t.2 t.2 = true then
          Except.error BringUpError.NoSuitableGPU
        else Except.ok t.2
      else Except.error BringUpError.NoSuitableGPU) := by
    unfold pickPhysicalDevice
    rw [hie]
    rw [if_neg Bool.false_ne_true]
    dsimp only
    rw [ht]
  refine ⟨t, ht, htmem, ht1, hmax2, ?_, ?_⟩ <;>
  · rw [hpick]
    by_cases hscore : t.1 > 0 <;>
      by_cases hsuit : isDeviceSuitable env t.2 t.2 = true <;>
        simp [hscore, hsuit, hne0, not_le] <;> omega

/-- Claim C8 (witness): on the one-device runtime `envW` with device list
`[1]`, the top entry exists and the success/failure characterization
holds. -/
theorem pickPhysicalDevice_spec_witness :
    ∃ t : Int × VkPhysicalDevice,
      multimapTop ([1].map fun d => (rateDeviceSuitability envW d, d)) =
        some t ∧
      t.2 ∈ [1] ∧ t.1 = rateDeviceSuitability envW t.2 ∧
      (∀ d ∈ [1], rateDeviceSuitability envW d ≤ t.1) ∧
      (pickPhysicalDevice envW [1] = Except.ok t.2 ↔
        0 < t.1 ∧ isDeviceSuitable envW t.2 t.2 = true) ∧
      (pickPhysicalDevice envW [1] = Except.error BringUpError.NoSuitableGPU ↔
        t.1 ≤ 0 ∨ isDeviceSuitable envW t.2 t.2 = false) :=
  pickPhysicalDevice_spec envW [1] (by decide) (by decide)

end TriangleApp
